import Mathlib

/-!
Verification of the agentarea-agents-sdk execution core.

This file shallowly embeds the execution loop (`agents/stateful_agent.py`),
the middleware pipeline (`middleware/base.py`) and the four built-in
middleware (`middleware/filesystem.py`, `middleware/summarization.py`,
`middleware/todolist.py`, `middleware/subagents.py`) in Lean, and proves
or refutes the frozen specification claims about them.

Conventions of the embedding:
- Python dicts used as string-keyed maps become association lists
  (`List (String × _)`) with in-place-overwrite assignment (`dictSet`),
  matching dict insertion-order semantics up to the lookups the claims use.
- Python `None`-or-value becomes `Option`; Python string truthiness
  (`if s:`) becomes `s ≠ ""` on the `some` case.
- The external language-model and tool-execution capabilities (out of
  scope per the specification) are oracle parameters of the embedded
  functions.
-/

/-- Python dict assignment `m[k] = v` on a string-keyed dict: overwrite the
existing binding in place, or append a new binding at the end. -/
def dictSet {α : Type} (m : List (String × α)) (k : String) (v : α) :
    List (String × α) :=
  match m with
  | [] => [(k, v)]
  | (k', v') :: rest =>
      if k' = k then (k, v) :: rest else (k', v') :: dictSet rest k v

/-- Python `dict.update(u)`: apply each binding of `u` in order. -/
def dictUpdate {α : Type} (m u : List (String × α)) : List (String × α) :=
  u.foldl (fun acc kv => dictSet acc kv.1 kv.2) m

/-- Python truthiness of an optional string (`None` and `""` are falsy). -/
def truthyStr : Option String → Bool
  | none => false
  | some s => s ≠ ""

/-- Python `a or b` on optional strings: `a` when truthy, else `b`. -/
def pyOrStr (a b : Option String) : Option String :=
  if truthyStr a then a else b

/-- A tool call as recorded inside an assistant message
(`{id, function: {name, arguments}}`, arguments still serialized). -/
structure MToolCall where
  id : String
  fname : String
  args : String
deriving DecidableEq

/-- A conversation turn record from the `messages` state key:
`{role, content, tool_calls?}` (`tool_calls? = none` models key absence). -/
structure Msg where
  role : String
  content : String
  tool_calls : Option (List MToolCall) := none
deriving DecidableEq

/-- The virtual filesystem held under the `files` state key. -/
abbrev Files := List (String × String)

namespace StatefulAgent

/-- One step of `StatefulAgent._execute_agent_loop`'s `while` loop
(stateful_agent.py lines 248-250): loop while `not done and
iteration < max_iterations`; each body run increments `iteration`,
writes it to the `iteration` state key (recorded in `trace`), and the
external model/tool activity of that iteration (oracle `completes`)
decides whether the designated `completion` tool was invoked, which sets
`done`.  Exceptions during tool handling are caught inside the body
(lines 344-357), so the body is total. -/
def loopGo (max_iterations : Nat) (completes : Nat → Bool) :
    Nat → Bool → List Nat → Nat × Bool × List Nat :=
  fun iteration done trace =>
    if h : done = false ∧ iteration < max_iterations then
      loopGo max_iterations completes (iteration + 1)
        (completes (iteration + 1)) (trace ++ [iteration + 1])
    else
      (iteration, done, trace)
termination_by iteration _ _ => max_iterations - iteration

/-- `StatefulAgent._execute_agent_loop`'s iteration bookkeeping for one
call: `iteration = 0`, `done = False`, then the `while` loop.  Returns the
final local `iteration`, the final `done`, and the list of values written
to the `iteration` state key, in order. -/
def execute_agent_loop_iters (max_iterations : Nat) (completes : Nat → Bool) :
    Nat × Bool × List Nat :=
  loopGo max_iterations completes 0 false []

end StatefulAgent

namespace FilesystemMiddleware

/-- The argument keys `FilesystemMiddleware.after_tool_call` reads from a
tool call's `function.arguments` (filesystem.py lines 53-55); each is
`none` when absent. -/
structure FsArgs where
  file_name : Option String := none
  path : Option String := none
  contents : Option String := none
  content : Option String := none
deriving DecidableEq

/-- A tool-call record as seen by the filesystem middleware:
`tool_call.get("id")` and `tool_call.get("function", {}).get("name")`
with its arguments. -/
structure FsToolCall where
  id : Option String := none
  fname : Option String := none
  args : FsArgs := {}
deriving DecidableEq

/-- A tool result as seen by the filesystem middleware: a Python string,
the eviction-notice dict the middleware itself builds, or some other
non-string value (opaque to this middleware). -/
inductive FsResult where
  | pstr (s : String)
  | notice (original_size : Nat) (file_path : String) (message : String)
  | other (tag : String)
deriving DecidableEq

/-- The synthesized eviction path (filesystem.py line 32). -/
def evictionPath (tool_call : FsToolCall) : String :=
  "/large_tool_results/" ++ tool_call.id.getD "unknown"

/-- The eviction-notice message text (filesystem.py line 45). -/
def evictionMessage (size : Nat) (file_path : String) : String :=
  "Result too large (" ++ toString size ++ " chars). Saved to " ++
    file_path ++ ". Use read_file() to access."

/-- The explicit file-write recording rule of
`FilesystemMiddleware.after_tool_call` (filesystem.py lines 50-62), the
fall-through reached when the eviction branch did not return early:
for a `write_file`/`save_file` call, extract `file_name or path` and
`contents or content` from the arguments and, when both are truthy,
record the content under the path, leaving the visible result
unaltered. -/
def writeFileRule (tool_call : FsToolCall) (result : FsResult)
    (files0 : Option Files) : FsResult × Option Files :=
  if tool_call.fname = some "write_file" ∨ tool_call.fname = some "save_file" then
    if truthyStr (pyOrStr tool_call.args.file_name tool_call.args.path) ∧
        truthyStr (pyOrStr tool_call.args.contents tool_call.args.content) then
      (result, some (dictSet (files0.getD [])
        ((pyOrStr tool_call.args.file_name tool_call.args.path).getD "")
        ((pyOrStr tool_call.args.contents tool_call.args.content).getD "")))
    else
      (result, none)
  else
    (result, none)

/-- The guard under which `writeFileRule` records a file: a designated
file-write tool with truthy extracted path and content. -/
def writeRuleApplies (tool_call : FsToolCall) : Bool :=
  (tool_call.fname == some "write_file" || tool_call.fname == some "save_file") &&
    truthyStr (pyOrStr tool_call.args.file_name tool_call.args.path) &&
    truthyStr (pyOrStr tool_call.args.contents tool_call.args.content)

/-- `FilesystemMiddleware.after_tool_call` (filesystem.py lines 25-62).
`files0` is `state.get("files")` (`none` when the key is absent); the
second component of the output is the `state_updates` value for the
`files` key (`none` models returning `state_updates = None`).  Rule (1),
context eviction, returns early; rule (2) is `writeFileRule`. -/
def after_tool_call (eviction_threshold : Nat) (tool_call : FsToolCall)
    (result : FsResult) (files0 : Option Files) : FsResult × Option Files :=
  match result with
  | FsResult.pstr s =>
      if s.length > eviction_threshold then
        let file_path := evictionPath tool_call
        let files := dictSet (files0.getD []) file_path s
        (FsResult.notice s.length file_path (evictionMessage s.length file_path),
          some files)
      else
        writeFileRule tool_call (FsResult.pstr s) files0
  | _ => writeFileRule tool_call result files0

end FilesystemMiddleware

namespace SummarizationMiddleware

/-- `count_tokens_approx` (summarization.py line 45): `len(text) // 4`. -/
def count_tokens_approx (text : String) : Nat :=
  text.length / 4

/-- The Python `str(...)` rendering of a tool-call dict, as fed to
`count_tokens_approx` by `count_messages_tokens` (summarization.py
line 61); only its length matters to the embedded code. -/
def strToolCall (tc : MToolCall) : String :=
  "\x7b'id': '" ++ tc.id ++ "', 'function': \x7b'name': '" ++ tc.fname ++
    "', 'arguments': '" ++ tc.args ++ "'\x7d\x7d"

/-- `count_messages_tokens` (summarization.py lines 50-62): sum the
approximate token counts of each message's string content, plus those of
its tool calls when the `tool_calls` key is present. -/
def count_messages_tokens (messages : List Msg) : Nat :=
  messages.foldl
    (fun total msg =>
      let total := total + count_tokens_approx msg.content
      match msg.tool_calls with
      | some tcs =>
          total + tcs.foldl (fun t tc => t + count_tokens_approx (strToolCall tc)) 0
      | none => total)
    0

/-- The deterministic truncation fallback used when summary generation
fails (summarization.py lines 156-161): the first 20 old messages,
rendered `role: content[:200]`, joined by newlines. -/
def fallbackSummary (old : List Msg) : String :=
  String.intercalate "\n"
    ((old.take 20).map (fun msg => msg.role ++ ": " ++ (msg.content.take 200)))

/-- The summary message built at summarization.py lines 163-166. -/
def summaryMsg (oldCount : Nat) (summary_text : String) : Msg :=
  { role := "system",
    content := "[Context Summary - " ++ toString oldCount ++ " messages]:\n" ++
      summary_text ++ "\n[End Summary]" }

/-- The system-message separation of summarization.py lines 133-137:
when the transcript starts with a system turn, detach it. -/
def splitSystem (messages : List Msg) : Option Msg × List Msg :=
  match messages with
  | m :: tail => if m.role = "system" then (some m, tail) else (none, messages)
  | [] => (none, [])

/-- The `recent` slice `messages[-keep_last:]` of summarization.py line
142.  Python's `-0 == 0` makes the slice the whole list when
`keep_last = 0`. -/
def recentOf (keep_last : Nat) (rest : List Msg) : List Msg :=
  if keep_last = 0 then rest else rest.drop (rest.length - keep_last)

/-- The `old` slice `messages[:-keep_last]` of summarization.py line 143
(empty when `keep_last = 0`, by the same `-0 == 0` rule). -/
def oldOf (keep_last : Nat) (rest : List Msg) : List Msg :=
  if keep_last = 0 then [] else rest.take (rest.length - keep_last)

/-- The `try/except` of summarization.py lines 151-161: `gen` is the
external `_generate_summary` model capability (`some s` a generated
summary, `none` the exception path), recovered by the deterministic
`fallbackSummary`. -/
def summaryText (gen : List Msg → Option String) (old : List Msg) : String :=
  match gen old with
  | some s => s
  | none => fallbackSummary old

/-- `SummarizationMiddleware.before_llm_call` (summarization.py lines
120-184).  The result is the returned state update:
`some (messages', summarization_count')` for
`{"messages": ..., "summarization_count": ...}`, `none` for
`return None`. -/
def before_llm_call (max_tokens keep_last : Nat)
    (gen : List Msg → Option String) (messages : List Msg)
    (summarization_count : Nat) : Option (List Msg × Nat) :=
  if messages.length ≤ keep_last + 1 then none
  else if count_messages_tokens messages ≤ max_tokens then none
  else if (splitSystem messages).2.length ≤ keep_last then none
  else
    some
      ((match (splitSystem messages).1 with
        | some m => [m]
        | none => []) ++
        summaryMsg (oldOf keep_last (splitSystem messages).2).length
            (summaryText gen (oldOf keep_last (splitSystem messages).2)) ::
          recentOf keep_last (splitSystem messages).2,
        summarization_count + 1)

end SummarizationMiddleware

/-- A task record from the `todos` state key
(`{id?, content, activeForm?, status}`); `id = none` or `id = some ""`
model the falsy cases of `if "id" in todo and todo["id"]`. -/
structure Todo where
  id : Option String := none
  content : String
  activeForm : Option String := none
  status : String
deriving DecidableEq

namespace TodoListMiddleware

/-- Modelled from the spec: the external task-tracking capability
(`InMemoryTaskService` from `tasks/task_service.py`, a file absent from
the sources) — "create(title, metadata) -> task with identifier;
set_status(identifier, status) -> success/failure".  Identifiers are
modelled as a deterministic counter (distinct and non-empty); `tasks`
maps identifier to status. -/
structure TaskService where
  nextId : Nat := 0
  tasks : List (String × String) := []
deriving DecidableEq

/-- Modelled from the spec: `task_service.create(title, metadata)` returns
a task with a fresh identifier. -/
def TaskService.create (svc : TaskService) (title : String) :
    String × TaskService :=
  let newId := "task-" ++ toString svc.nextId
  (newId, { nextId := svc.nextId + 1, tasks := dictSet svc.tasks newId "pending" })
  -- `title` names the task in the external tracker; the identifier is what
  -- flows back into `todos`.

/-- Modelled from the spec: `task_service.set_status(id, status)`; unknown
identifiers fail, and todolist.py lines 41-44 swallow that failure. -/
def TaskService.set_status (svc : TaskService) (id status : String) :
    TaskService :=
  if (svc.tasks.lookup id).isSome then
    { svc with tasks := dictSet svc.tasks id status }
  else svc

/-- The structured result substituted by `TodoListMiddleware` for the
skipped `write_todos` execution: the failure envelope of todolist.py
lines 31-34 or the success envelope of lines 63-67. -/
inductive TodoResult where
  | failure (error : String)
  | success (todos_count : Nat) (result : String)
deriving DecidableEq

/-- The rejection text of todolist.py line 33. -/
def emptyTodosError : String :=
  "Empty todos array. You must create the plan yourself by analyzing the task and breaking it into specific steps. The write_todos tool only RECORDS your plan - it does not create the plan for you. Please call write_todos() with a complete list of todos that YOU created."

/-- A tool call as seen by `TodoListMiddleware.before_tool_call`:
`function.name`, the `todos` argument (`none` when the key is absent,
defaulted to `[]` by `.get("todos", [])`), and the two core-reserved
control fields `_skip_execution` / `_result`. -/
structure TodoToolCall where
  fname : Option String := none
  todos : Option (List Todo) := none
  skip : Bool := false
  res : Option TodoResult := none
deriving DecidableEq

/-- The reconciliation loop of todolist.py lines 38-51: an entry with a
truthy `id` updates that task's status in the tracker (failures
swallowed); an entry without one is created in the tracker and the fresh
identifier is assigned into the entry in place. -/
def syncTodos (svc : TaskService) : List Todo → List Todo × TaskService
  | [] => ([], svc)
  | todo :: rest =>
      if truthyStr todo.id then
        let svc' := svc.set_status (todo.id.getD "") todo.status
        let (ts, svc'') := syncTodos svc' rest
        (todo :: ts, svc'')
      else
        let (newId, svc') := svc.create todo.content
        let todo' := { todo with id := some newId }
        let (ts, svc'') := syncTodos svc' rest
        (todo' :: ts, svc'')

/-- The human-readable summary of todolist.py lines 57-61. -/
def todosSummaryMessage (todos : List Todo) : String :=
  "Updated todo list (" ++ toString todos.length ++ " tasks):\n" ++
    String.intercalate "\n"
      (todos.map (fun todo => "- [" ++ todo.status ++ "] " ++ todo.content))

/-- `TodoListMiddleware.before_tool_call` (todolist.py lines 22-72).
Output: the (possibly control-field-annotated) tool call, the returned
state updates for the `todos` key (`none` models `return tool_call, None`),
and the task-tracker state. -/
def before_tool_call (svc : TaskService) (tool_call : TodoToolCall) :
    TodoToolCall × Option (List Todo) × TaskService :=
  if tool_call.fname = some "write_todos" then
    let todos := tool_call.todos.getD []
    if todos = [] then
      ({ tool_call with skip := true,
                        res := some (TodoResult.failure emptyTodosError) },
        none, svc)
    else
      let (todos', svc') := syncTodos svc todos
      ({ tool_call with skip := true,
                        res := some (TodoResult.success todos'.length
                          (todosSummaryMessage todos')) },
        some todos', svc')
  else
    (tool_call, none, svc)

end TodoListMiddleware

namespace SubAgentMiddleware

/-- A custom sub-agent specification (name, description, optional own
instruction/tools; only the name drives resolution). -/
structure SubSpec where
  name : String
  description : String
deriving DecidableEq

/-- The configuration of a `SubAgentMiddleware` instance relevant to
sub-agent resolution (subagents.py lines 155-158). -/
structure MWConfig where
  general_purpose_agent : Bool
  subagents : List SubSpec
deriving DecidableEq

/-- The `_compiled_agents` cache, keyed by sub-agent type; each cached
agent instance is represented by its type key (construction of the
concrete `StatefulAgent` is external to this middleware). -/
abbrev Cache := List String

/-- `_get_available_agent_types` (subagents.py lines 213-219). -/
def availableTypes (cfg : MWConfig) : List String :=
  (if cfg.general_purpose_agent then ["general-purpose"] else []) ++
    cfg.subagents.map (·.name)

/-- Whether `_create_subagent` (subagents.py lines 194-211) returns an
agent (rather than `None`): the general-purpose default when enabled, or
a custom specification matched by name. -/
def createSucceeds (cfg : MWConfig) (subagent_type : String) : Bool :=
  (subagent_type = "general-purpose" ∧ cfg.general_purpose_agent) ∨
    cfg.subagents.any (·.name = subagent_type)

/-- Outcome of the nested `agent.run(description)` call (an external,
recursive execution-loop run): normal return or a raised exception. -/
inductive RunOutcome where
  | ok (result : String)
  | exc (err : String)
deriving DecidableEq

/-- The dict returned by `run_subagent`: `{"success": True, "result": …}`,
`{"success": False, "error": …}`, or the unknown-type `{"error": …}`. -/
inductive Envelope where
  | success (result : String)
  | failure (error : String)
  | unknown (error : String)
deriving DecidableEq

/-- The unknown-type error text (subagents.py lines 177-179). -/
def unknownTypeError (cfg : MWConfig) (subagent_type : String) : String :=
  "Subagent type '" ++ subagent_type ++ "' not found. Available: " ++
    String.intercalate ", " (availableTypes cfg)

/-- The `try/except` around the nested run (subagents.py lines 186-192). -/
def execEnvelope : RunOutcome → Envelope
  | RunOutcome.ok r => Envelope.success r
  | RunOutcome.exc e => Envelope.failure e

/-- `SubAgentMiddleware.run_subagent` (subagents.py lines 170-192):
resolve the requested type against the cache, lazily constructing and
caching it on first use; an unresolvable type yields the structured
unknown-type error; otherwise run the (external) nested agent, wrapping
its outcome — exception included — in an envelope.  `runAgent` is the
nested-run oracle. -/
def run_subagent (cfg : MWConfig) (cache : Cache) (subagent_type : String)
    (runAgent : String → RunOutcome) : Envelope × Cache :=
  if subagent_type ∈ cache then
    (execEnvelope (runAgent subagent_type), cache)
  else if createSucceeds cfg subagent_type then
    (execEnvelope (runAgent subagent_type), cache ++ [subagent_type])
  else
    (Envelope.unknown (unknownTypeError cfg subagent_type), cache)

/-- The refusal text of subagents.py lines 242-247. -/
def planningRequiredError : String :=
  "Planning required before delegation. You MUST create a plan using write_todos before delegating tasks. For multi-step work (3+ steps): FIRST create a complete plan showing all steps, THEN work through your plan step-by-step, and ONLY AFTER that you may delegate specific subtasks if isolation benefits them. This ensures the user sees your planning process. Call write_todos() with your plan first."

/-- A tool call as seen by `SubAgentMiddleware.before_tool_call`:
`function.name` plus the two core-reserved control fields. -/
structure SAToolCall where
  fname : Option String := none
  skip : Bool := false
  res : Option Envelope := none
deriving DecidableEq

/-- `SubAgentMiddleware.before_tool_call` (subagents.py lines 229-251):
the planning gate.  `todos0` is `state.get("todos")` (`none` when absent,
defaulted to `[]`).  The `Option Unit` output is the returned state
updates, always `none` (`return tool_call, None` on every path). -/
def before_tool_call (tool_call : SAToolCall) (todos0 : Option (List Todo)) :
    SAToolCall × Option Unit :=
  if tool_call.fname = some "task" then
    let todos := todos0.getD []
    if todos = [] then
      ({ tool_call with skip := true,
                        res := some (Envelope.failure planningRequiredError) },
        none)
    else
      (tool_call, none)
  else
    (tool_call, none)

end SubAgentMiddleware

namespace MiddlewareStack

/-- The keyed state container (`state._data`), restricted to one value
type; the pipeline itself is polymorphic in the values it merges. -/
abbrev Smap (α : Type) := List (String × α)

/-- One `before_llm_call` hook: a function of the state returning state
updates or `None`. -/
abbrev BeforeLlmHook (α : Type) := Smap α → Option (Smap α)

/-- The body of the `for` loop of `MiddlewareStack.run_before_llm`
(base.py lines 76-79): run the hook, then `if updates:
state.update(updates)` (an empty dict is falsy and applies nothing). -/
def applyHook {α : Type} (state : Smap α) (updates : Option (Smap α)) :
    Smap α :=
  match updates with
  | some u => if u.isEmpty then state else dictUpdate state u
  | none => state

/-- `MiddlewareStack.run_before_llm` (base.py lines 74-79): run each
middleware's hook in list order, merging its updates into the state
before the next middleware runs. -/
def run_before_llm {α : Type} (mws : List (BeforeLlmHook α))
    (state : Smap α) : Smap α :=
  match mws with
  | [] => state
  | mw :: rest => run_before_llm rest (applyHook state (mw state))

/-- One `after_tool_call` hook: a function of the threaded result and the
state, returning the (possibly modified) result and state updates. -/
abbrev AfterToolHook (α β : Type) := β → Smap α → β × Option (Smap α)

/-- `MiddlewareStack.run_after_tool` (base.py lines 96-102): thread the
result through each middleware's hook in list order, merging each hook's
updates into the state before the next middleware runs; returns the final
result and final state.  (The source applies the state mutations to the
shared container and returns the result; the embedding returns both.) -/
def run_after_tool {α β : Type} (mws : List (AfterToolHook α β))
    (result : β) (state : Smap α) : β × Smap α :=
  match mws with
  | [] => (result, state)
  | mw :: rest =>
      let (result', updates) := mw result state
      run_after_tool rest result' (applyHook state updates)

/-- Modelled from the spec: the batch-merge reading of "state updates …
applied by the pipeline via a shallow merge into the state container
after every middleware in the chain has run for that hook" — every hook
observes the original state, and the update sets are merged in list order
only after all hooks have run.  Stated for comparison with the source's
`run_before_llm`. -/
def run_before_llm_batchSpec {α : Type} (mws : List (BeforeLlmHook α))
    (state : Smap α) : Smap α :=
  (mws.map (fun mw => mw state)).foldl applyHook state

/-- A hook's returned update set as actually merged: an absent or
falsy-empty update set contributes nothing. -/
def normalizeUpd {α : Type} (updates : Option (Smap α)) : Smap α :=
  match updates with
  | some u => if u.isEmpty then [] else u
  | none => []

/-- The per-hook update sets emitted during a sequential
`run_before_llm` run, in emission order. -/
def collectUpdates {α : Type} (mws : List (BeforeLlmHook α))
    (state : Smap α) : List (Smap α) :=
  match mws with
  | [] => []
  | mw :: rest =>
      normalizeUpd (mw state) :: collectUpdates rest (applyHook state (mw state))

/-- The per-hook update sets emitted during a sequential `run_after_tool`
run, in emission order, following the threading of the result. -/
def collectUpdatesAT {α β : Type} (mws : List (AfterToolHook α β))
    (result : β) (state : Smap α) : List (Smap α) :=
  match mws with
  | [] => []
  | mw :: rest =>
      normalizeUpd (mw result state).2 ::
        collectUpdatesAT rest (mw result state).1
          (applyHook state (mw result state).2)

/-- The last binding of key `k` in an update list (the binding that wins
a sequential shallow merge). -/
def lastBind {α : Type} (u : Smap α) (k : String) : Option α :=
  u.reverse.lookup k

end MiddlewareStack

namespace StatefulAgent

/-- One chunk of the model's incremental response stream
(`chunk.content`, `chunk.tool_calls`). -/
structure Chunk where
  content : Option String := none
  tool_calls : Option (List MToolCall) := none
deriving DecidableEq

/-- One iteration of the stream-consumption loop of
`_execute_agent_loop` (stateful_agent.py lines 267-273): `if
chunk.content:` append it to `full_content`; `if chunk.tool_calls:`
overwrite `final_tool_calls`. -/
def consumeStep (acc : String × Option (List MToolCall)) (c : Chunk) :
    String × Option (List MToolCall) :=
  let acc :=
    match c.content with
    | some s => if s ≠ "" then (acc.1 ++ s, acc.2) else acc
    | none => acc
  match c.tool_calls with
  | some tcs => if tcs ≠ [] then (acc.1, some tcs) else acc
  | none => acc

/-- The stream-consumption loop of `_execute_agent_loop`
(stateful_agent.py lines 264-273), starting from `full_content = ""`,
`final_tool_calls = None`. -/
def consumeStream (chunks : List Chunk) :
    String × Option (List MToolCall) :=
  chunks.foldl consumeStep ("", none)

/-- The tool-call field of the last chunk whose tool-call field is truthy
(present and non-empty); used to characterize `consumeStream`. -/
def truthyToolCalls (c : Chunk) : Option (List MToolCall) :=
  match c.tool_calls with
  | some tcs => if tcs ≠ [] then some tcs else none
  | none => none

/-- The keyword parameters declared by `SubAgentMiddleware.__init__`
(subagents.py lines 138-145); the signature has no `**kwargs`. -/
def subAgentInitParams : List String :=
  ["default_agent_class", "default_agent_kwargs", "subagents",
   "general_purpose_agent", "system_prompt"]

/-- The keyword arguments `StatefulAgent.__init__` passes to
`SubAgentMiddleware(...)` (stateful_agent.py lines 145-153). -/
def subAgentCallKwargs : List String :=
  ["default_agent_class", "default_agent_kwargs", "subagents",
   "general_purpose_agent", "parent_tools"]

/-- Python call semantics: binding keyword arguments against a signature
without `**kwargs` raises `TypeError` at the first unexpected keyword. -/
def bindKwargs (params kwargs : List String) : Except String Unit :=
  match kwargs.filter (fun k => ¬ (k ∈ params)) with
  | [] => Except.ok ()
  | k :: _ =>
      Except.error ("TypeError: __init__() got an unexpected keyword argument '"
        ++ k ++ "'")

/-- The default-middleware-stack assembly of `StatefulAgent.__init__`
(stateful_agent.py lines 102-165), tracking only which middleware get
constructed and whether a constructor call raises; the external model
client and tool registrations are assumed to construct successfully (they
are out-of-scope collaborators).  Returns the names of the assembled
default middleware, or the propagated constructor error. -/
def buildDefaultMiddlewares (enable_default_middleware enable_todolist
    enable_filesystem enable_subagents enable_summarization : Bool) :
    Except String (List String) := do
  if enable_default_middleware then
    let ms := if enable_todolist then ["TodoListMiddleware"] else []
    let ms := ms ++ (if enable_filesystem then ["FilesystemMiddleware"] else [])
    let ms ← do
      if enable_subagents then
        bindKwargs subAgentInitParams subAgentCallKwargs
        pure (ms ++ ["SubAgentMiddleware"])
      else
        pure ms
    let ms := ms ++ (if enable_summarization then ["SummarizationMiddleware"] else [])
    pure ms
  else
    pure []

/-- The transcript-mutating operations of one agent lifetime, acting on
the `messages` / `summarization_count` state keys:
`startRun` is the per-task initialization of `_execute_agent_loop`
(stateful_agent.py lines 226-242: one-time state seeding, conditional
system-prompt insertion at index 0, user-turn append); `appendMsg` is an
assistant-turn or tool-turn append (lines 275-279, 330-339, 344-355);
`summarize` is `SummarizationMiddleware.before_llm_call` applied through
the pipeline's state merge. -/
inductive LoopOp where
  | startRun (system_prompt task : String)
  | appendMsg (m : Msg)
  | summarize (max_tokens keep_last : Nat) (gen : List Msg → Option String)

/-- The initialization segment of `_execute_agent_loop`
(stateful_agent.py lines 236-242): insert the system prompt at index 0
when the transcript is empty or does not start with a system turn, then
append the user task. -/
def initMessages (system_prompt task : String) (messages : List Msg) :
    List Msg :=
  let messages :=
    if messages = [] ∨ ¬ ((messages.head?.map Msg.role) = some "system") then
      { role := "system", content := system_prompt : Msg } :: messages
    else messages
  messages ++ [{ role := "user", content := task }]

/-- Whether a `startRun` on this transcript inserts the system prompt. -/
def installsSystem (messages : List Msg) : Bool :=
  messages = [] ∨ ¬ ((messages.head?.map Msg.role) = some "system")

/-- Apply one transcript operation to
`(messages, summarization_count)`. -/
def applyOp (st : List Msg × Nat) : LoopOp → List Msg × Nat
  | LoopOp.startRun system_prompt task =>
      (initMessages system_prompt task st.1, st.2)
  | LoopOp.appendMsg m => (st.1 ++ [m], st.2)
  | LoopOp.summarize max_tokens keep_last gen =>
      match SummarizationMiddleware.before_llm_call max_tokens keep_last gen
          st.1 st.2 with
      | some upd => upd
      | none => st

/-- Run a sequence of transcript operations, counting how many times the
system prompt gets installed at index 0. -/
def runOps (st : List Msg × Nat) : List LoopOp → (List Msg × Nat) × Nat
  | [] => (st, 0)
  | op :: rest =>
      let inserts :=
        match op with
        | LoopOp.startRun _ _ => if installsSystem st.1 then 1 else 0
        | _ => 0
      let (st', n) := runOps (applyOp st op) rest
      (st', inserts + n)

end StatefulAgent

/-! ## Shared lemmas -/

theorem lookup_dictSet {α : Type} (m : List (String × α)) (k : String) (v : α) :
    (dictSet m k v).lookup k = some v := by
  induction m with
  | nil => simp [dictSet, List.lookup]
  | cons kv rest ih =>
      obtain ⟨k₀, v₀⟩ := kv
      simp only [dictSet]
      by_cases h : k₀ = k
      · rw [if_pos h]
        simp [List.lookup]
      · rw [if_neg h]
        have hb : (k == k₀) = false := beq_eq_false_iff_ne.mpr (Ne.symm h)
        simp [List.lookup, hb, ih]

theorem lookup_dictSet_ne {α : Type} (m : List (String × α)) (k k' : String)
    (v : α) (h : k ≠ k') : (dictSet m k' v).lookup k = m.lookup k := by
  induction m with
  | nil =>
      have hb : (k == k') = false := beq_eq_false_iff_ne.mpr h
      simp [dictSet, List.lookup, hb]
  | cons kv rest ih =>
      obtain ⟨k₀, v₀⟩ := kv
      simp only [dictSet]
      by_cases hk : k₀ = k'
      · subst hk
        have hb : (k == k₀) = false := beq_eq_false_iff_ne.mpr h
        simp [List.lookup, hb]
      · rw [if_neg hk]
        by_cases hkk : k = k₀
        · subst hkk
          simp [List.lookup]
        · have hb : (k == k₀) = false := beq_eq_false_iff_ne.mpr hkk
          simp [List.lookup, hb, ih]

theorem loopGo_spec (M : Nat) (c : Nat → Bool) :
    ∀ (fuel iteration : Nat) (done : Bool) (trace : List Nat),
      M - iteration ≤ fuel → iteration ≤ M →
      (StatefulAgent.loopGo M c iteration done trace).1 ≤ M ∧
      iteration ≤ (StatefulAgent.loopGo M c iteration done trace).1 ∧
      (∀ v ∈ (StatefulAgent.loopGo M c iteration done trace).2.2,
        v ∈ trace ∨ v ≤ M) ∧
      (StatefulAgent.loopGo M c iteration done trace).2.2.length =
        trace.length + ((StatefulAgent.loopGo M c iteration done trace).1 - iteration) ∧
      ((∀ i, c i = false) → done = false →
        (StatefulAgent.loopGo M c iteration done trace).1 = M ∧
        (StatefulAgent.loopGo M c iteration done trace).2.1 = false) := by
  intro fuel
  induction fuel with
  | zero =>
      intro iteration done trace hf hle
      have hIM : iteration = M := by omega
      rw [StatefulAgent.loopGo]
      have hguard : ¬ (done = false ∧ iteration < M) := by omega
      rw [dif_neg hguard]
      dsimp only
      refine ⟨hle, Nat.le_refl _, fun v hv => Or.inl hv, by omega,
        fun _ hdone => ⟨hIM, hdone⟩⟩
  | succ n ih =>
      intro iteration done trace hf hle
      rw [StatefulAgent.loopGo]
      by_cases hguard : done = false ∧ iteration < M
      · rw [dif_pos hguard]
        have hf' : M - (iteration + 1) ≤ n := by omega
        have hle' : iteration + 1 ≤ M := by omega
        obtain ⟨h1, h0, h2, h3, h4⟩ :=
          ih (iteration + 1) (c (iteration + 1)) (trace ++ [iteration + 1]) hf' hle'
        refine ⟨h1, Nat.le_trans (Nat.le_succ iteration) h0, ?_, ?_, ?_⟩
        · intro v hv
          rcases h2 v hv with hv' | hv'
          · rcases List.mem_append.mp hv' with h | h
            · exact Or.inl h
            · simp only [List.mem_singleton] at h
              omega
          · exact Or.inr hv'
        · rw [h3]
          simp only [List.length_append, List.length_singleton]
          omega
        · intro hc _
          exact h4 hc (hc (iteration + 1))
      · rw [dif_neg hguard]
        dsimp only
        refine ⟨hle, Nat.le_refl _, fun v hv => Or.inl hv, by omega,
          fun _ hdone => ?_⟩
        have hIM : iteration = M := by
          by_contra hne
          exact hguard ⟨hdone, by omega⟩
        exact ⟨hIM, hdone⟩

/-! ## Claim theorems -/

/-- C1.  Loop termination and iteration ceiling
(`StatefulAgent._execute_agent_loop`, stateful_agent.py lines 245-250):
during one call of the execution loop with `max_iterations = M`, the loop
body executes at most `M` times (the list of `iteration`-key writes has
length at most `M`), every value written to the `iteration` state key is
at most `M`, and if the designated `completion` tool is never invoked the
loop exits normally — the embedded loop is total, with tool-level
exceptions caught inside the body — with the final iteration count equal
to `M` and `done = false`. -/
theorem loop_termination_C1 (M : Nat) (completes : Nat → Bool) :
    (StatefulAgent.execute_agent_loop_iters M completes).2.2.length ≤ M ∧
    (∀ v ∈ (StatefulAgent.execute_agent_loop_iters M completes).2.2, v ≤ M) ∧
    ((∀ i, completes i = false) →
      (StatefulAgent.execute_agent_loop_iters M completes).1 = M ∧
      (StatefulAgent.execute_agent_loop_iters M completes).2.1 = false) := by
  obtain ⟨h1, h0, h2, h3, h4⟩ :=
    loopGo_spec M completes M 0 false [] (by omega) (by omega)
  unfold StatefulAgent.execute_agent_loop_iters
  refine ⟨?_, ?_, fun hc => h4 hc rfl⟩
  · simp only [List.length_nil] at h3
    omega
  · intro v hv
    rcases h2 v hv with h | h
    · simp at h
    · exact h

/-- C1 witness: at `max_iterations = 3` with a completion tool that never
fires, the loop writes `iteration = 1, 2, 3` and exits with
`iteration = 3`, `done = false`. -/
theorem loop_termination_C1_witness :
    (StatefulAgent.execute_agent_loop_iters 3 (fun _ => false)).2.2.length ≤ 3 ∧
    (∀ v ∈ (StatefulAgent.execute_agent_loop_iters 3 (fun _ => false)).2.2, v ≤ 3) ∧
    ((StatefulAgent.execute_agent_loop_iters 3 (fun _ => false)).1 = 3 ∧
      (StatefulAgent.execute_agent_loop_iters 3 (fun _ => false)).2.1 = false) := by
  obtain ⟨h1, h2, h3⟩ := loop_termination_C1 3 (fun _ => false)
  exact ⟨h1, h2, h3 (fun i => rfl)⟩

theorem writeFileRule_result (tool_call : FilesystemMiddleware.FsToolCall)
    (result : FilesystemMiddleware.FsResult) (files0 : Option Files) :
    (FilesystemMiddleware.writeFileRule tool_call result files0).1 = result := by
  unfold FilesystemMiddleware.writeFileRule
  split
  · split <;> rfl
  · rfl

theorem writeFileRule_not_applies (tool_call : FilesystemMiddleware.FsToolCall)
    (result : FilesystemMiddleware.FsResult) (files0 : Option Files)
    (h : FilesystemMiddleware.writeRuleApplies tool_call = false) :
    FilesystemMiddleware.writeFileRule tool_call result files0 = (result, none) := by
  unfold FilesystemMiddleware.writeRuleApplies at h
  unfold FilesystemMiddleware.writeFileRule
  by_cases hor : tool_call.fname = some "write_file" ∨ tool_call.fname = some "save_file"
  · rw [if_pos hor]
    have hb : (tool_call.fname == some "write_file" ||
        tool_call.fname == some "save_file") = true := by
      rcases hor with h' | h' <;> simp [h']
    rw [hb] at h
    simp only [Bool.true_and, Bool.and_eq_false_iff] at h
    have hcond : ¬ (truthyStr (pyOrStr tool_call.args.file_name tool_call.args.path) = true ∧
        truthyStr (pyOrStr tool_call.args.contents tool_call.args.content) = true) := by
      rcases h with h' | h' <;> simp [h']
    rw [if_neg hcond]
  · rw [if_neg hor]

theorem writeFileRule_applies (tool_call : FilesystemMiddleware.FsToolCall)
    (result : FilesystemMiddleware.FsResult) (files0 : Option Files) (p c : String)
    (hfname : tool_call.fname = some "write_file" ∨ tool_call.fname = some "save_file")
    (hp : pyOrStr tool_call.args.file_name tool_call.args.path = some p) (hp' : p ≠ "")
    (hc : pyOrStr tool_call.args.contents tool_call.args.content = some c) (hc' : c ≠ "") :
    FilesystemMiddleware.writeFileRule tool_call result files0 =
      (result, some (dictSet (files0.getD []) p c)) := by
  unfold FilesystemMiddleware.writeFileRule
  rw [if_pos hfname]
  have ht : truthyStr (pyOrStr tool_call.args.file_name tool_call.args.path) = true ∧
      truthyStr (pyOrStr tool_call.args.contents tool_call.args.content) = true := by
    rw [hp, hc]
    simp [truthyStr, hp', hc']
  rw [if_pos ht, hp, hc]
  rfl

theorem after_tool_call_pstr (T : Nat) (tool_call : FilesystemMiddleware.FsToolCall)
    (s : String) (files0 : Option Files) :
    FilesystemMiddleware.after_tool_call T tool_call
        (FilesystemMiddleware.FsResult.pstr s) files0 =
      if s.length > T then
        (FilesystemMiddleware.FsResult.notice s.length
            (FilesystemMiddleware.evictionPath tool_call)
            (FilesystemMiddleware.evictionMessage s.length
              (FilesystemMiddleware.evictionPath tool_call)),
          some (dictSet (files0.getD [])
            (FilesystemMiddleware.evictionPath tool_call) s))
      else
        FilesystemMiddleware.writeFileRule tool_call
          (FilesystemMiddleware.FsResult.pstr s) files0 := rfl

/-- C2 counterexample.  The claim asserts that, for *every* tool call, a
string result of length at most the threshold leaves `files` without a
new entry for that call; but for a `write_file` call with truthy `path`
and `content` arguments, `FilesystemMiddleware.after_tool_call`
(filesystem.py lines 50-62) returns a `files` update recording the
written file even though the result (length 2 ≤ 100) is passed through
unmodified — the "files gains no new entry" half of the claim is false
as stated. -/
theorem eviction_C2_counterexample :
    ("hi".length ≤ 100) ∧
    ¬ ((FilesystemMiddleware.after_tool_call 100
        { fname := some "write_file",
          args := { path := some "a.txt", content := some "hello" } }
        (FilesystemMiddleware.FsResult.pstr "hi") (some [])).2 = none) ∧
    (FilesystemMiddleware.after_tool_call 100
        { fname := some "write_file",
          args := { path := some "a.txt", content := some "hello" } }
        (FilesystemMiddleware.FsResult.pstr "hi") (some [])).2 =
      some [("a.txt", "hello")] := by decide

/-- C2 (amended).  Eviction in `FilesystemMiddleware.after_tool_call`
(filesystem.py lines 25-62) with threshold `T`: a string result of
length > `T` is stored byte-for-byte in the `files` map under the
synthesized path derived from the tool-call identifier, and the visible
result is replaced by an eviction notice carrying the original size and
that path; a string result of length ≤ `T` is passed through unmodified
and — unless the call is to a designated file-write tool with truthy
extracted path and content arguments (the explicit write-recording rule
of C10) — `files` gains no new entry for that call. -/
theorem eviction_C2 (T : Nat) (tool_call : FilesystemMiddleware.FsToolCall)
    (s : String) (files0 : Option Files) :
    (s.length > T →
      FilesystemMiddleware.after_tool_call T tool_call
          (FilesystemMiddleware.FsResult.pstr s) files0 =
        (FilesystemMiddleware.FsResult.notice s.length
            (FilesystemMiddleware.evictionPath tool_call)
            (FilesystemMiddleware.evictionMessage s.length
              (FilesystemMiddleware.evictionPath tool_call)),
          some (dictSet (files0.getD []) (FilesystemMiddleware.evictionPath tool_call) s)) ∧
      (dictSet (files0.getD []) (FilesystemMiddleware.evictionPath tool_call) s).lookup
          (FilesystemMiddleware.evictionPath tool_call) = some s) ∧
    (s.length ≤ T → FilesystemMiddleware.writeRuleApplies tool_call = false →
      FilesystemMiddleware.after_tool_call T tool_call
          (FilesystemMiddleware.FsResult.pstr s) files0 =
        (FilesystemMiddleware.FsResult.pstr s, none)) := by
  constructor
  · intro hgt
    rw [after_tool_call_pstr, if_pos hgt]
    exact ⟨rfl, lookup_dictSet _ _ _⟩
  · intro hle hw
    rw [after_tool_call_pstr, if_neg (by omega)]
    exact writeFileRule_not_applies _ _ _ hw

/-- C2 witness: at threshold 4, the 6-character result `"123456"` of a
tool call with id `t1` is evicted to `/large_tool_results/t1` and is
recoverable there verbatim; the 2-character result `"hi"` of a
non-write tool call passes through with no `files` update. -/
theorem eviction_C2_witness :
    (("123456".length > 4) ∧
      FilesystemMiddleware.after_tool_call 4 { id := some "t1" }
          (FilesystemMiddleware.FsResult.pstr "123456") none =
        (FilesystemMiddleware.FsResult.notice 6 "/large_tool_results/t1"
            (FilesystemMiddleware.evictionMessage 6 "/large_tool_results/t1"),
          some [("/large_tool_results/t1", "123456")]) ∧
      [("/large_tool_results/t1", "123456")].lookup "/large_tool_results/t1" =
        some "123456") ∧
    (("hi".length ≤ 4) ∧
      FilesystemMiddleware.after_tool_call 4 { id := some "t1" }
          (FilesystemMiddleware.FsResult.pstr "hi") none =
        (FilesystemMiddleware.FsResult.pstr "hi", none)) := by
  have h1 := (eviction_C2 4 { id := some "t1" } "123456" none).1 (by decide)
  have h2 := (eviction_C2 4 { id := some "t1" } "hi" none).2 (by decide) (by decide)
  exact ⟨⟨by decide, h1.1, h1.2⟩, ⟨by decide, h2⟩⟩

/-- C10.  Explicit file writes and eviction/write mutual exclusion in
`FilesystemMiddleware.after_tool_call` (filesystem.py lines 25-62): for
a call to a designated file-write tool whose arguments yield a truthy
path `p` and content `c` and whose result does not trigger eviction (a
non-string result, or a string of length at most the threshold), the
hook stores `c` under `p` in `files` while returning the visible result
unaltered; and when the eviction rule fires on a string result, the
write-recording rule is not applied — the only `files` change is the
eviction entry, and any other key, `p` included, is left exactly as it
was. -/
theorem filesystem_write_C10 (T : Nat)
    (tool_call : FilesystemMiddleware.FsToolCall)
    (result : FilesystemMiddleware.FsResult) (files0 : Option Files)
    (p c : String)
    (hfname : tool_call.fname = some "write_file" ∨ tool_call.fname = some "save_file")
    (hp : pyOrStr tool_call.args.file_name tool_call.args.path = some p) (hp' : p ≠ "")
    (hc : pyOrStr tool_call.args.contents tool_call.args.content = some c) (hc' : c ≠ "") :
    ((∀ s, result = FilesystemMiddleware.FsResult.pstr s → s.length ≤ T) →
      FilesystemMiddleware.after_tool_call T tool_call result files0 =
        (result, some (dictSet (files0.getD []) p c)) ∧
      (dictSet (files0.getD []) p c).lookup p = some c) ∧
    (∀ s, s.length > T →
      (FilesystemMiddleware.after_tool_call T tool_call
          (FilesystemMiddleware.FsResult.pstr s) files0).2 =
        some (dictSet (files0.getD [])
          (FilesystemMiddleware.evictionPath tool_call) s) ∧
      (p ≠ FilesystemMiddleware.evictionPath tool_call →
        (dictSet (files0.getD [])
            (FilesystemMiddleware.evictionPath tool_call) s).lookup p =
          (files0.getD []).lookup p)) := by
  constructor
  · intro hnoev
    have hwr := writeFileRule_applies tool_call result files0 p c hfname hp hp' hc hc'
    refine ⟨?_, lookup_dictSet _ _ _⟩
    cases result with
    | pstr s =>
        rw [after_tool_call_pstr, if_neg (by have := hnoev s rfl; omega)]
        exact hwr
    | notice n fp m => exact hwr
    | other t => exact hwr
  · intro s hgt
    constructor
    · rw [after_tool_call_pstr, if_pos hgt]
    · intro hne
      exact lookup_dictSet_ne _ _ _ _ hne

/-- C10 witness: a `write_file` call with `path = "a"`, `content = "b"`
and short result `"ok"` (threshold 4) records `("a", "b")` and leaves the
result unaltered; the same call with the oversized result `"123456"`
produces only the eviction entry, leaving key `"a"` untouched. -/
theorem filesystem_write_C10_witness :
    (FilesystemMiddleware.after_tool_call 4
        { fname := some "write_file",
          args := { path := some "a", content := some "b" } }
        (FilesystemMiddleware.FsResult.pstr "ok") (some []) =
      (FilesystemMiddleware.FsResult.pstr "ok", some [("a", "b")]) ∧
      ([("a", "b")] : Files).lookup "a" = some "b") ∧
    ((FilesystemMiddleware.after_tool_call 4
        { fname := some "write_file",
          args := { path := some "a", content := some "b" } }
        (FilesystemMiddleware.FsResult.pstr "123456") (some [])).2 =
      some [("/large_tool_results/unknown", "123456")] ∧
      ([("/large_tool_results/unknown", "123456")] : Files).lookup "a" =
        ([] : Files).lookup "a") := by
  have h := filesystem_write_C10 4
    { fname := some "write_file", args := { path := some "a", content := some "b" } }
    (FilesystemMiddleware.FsResult.pstr "ok") (some []) "a" "b"
    (Or.inl rfl) (by decide) (by decide) (by decide) (by decide)
  have h1 := h.1 (by intro s hs; cases hs; decide)
  have h2 := h.2 "123456" (by decide)
  exact ⟨⟨h1.1, h1.2⟩, ⟨h2.1, h2.2 (by decide)⟩⟩

/-- C4.  Empty-plan rejection in `TodoListMiddleware.before_tool_call`
(todolist.py lines 22-35): a call to the designated planning tool
`write_todos` whose `todos` argument is missing (defaulted to `[]` by
`.get("todos", [])`) or empty is marked `_skip_execution = True` (so the
tool is never executed by the orchestrator, stateful_agent.py lines
316-317), gets the structured failure envelope substituted as its
`_result`, and the hook returns no state updates — so the `todos` state
key is never created or modified by an empty submission, and the
external task tracker is left untouched. -/
theorem planning_empty_C4 (svc : TodoListMiddleware.TaskService)
    (tool_call : TodoListMiddleware.TodoToolCall)
    (hname : tool_call.fname = some "write_todos")
    (hempty : tool_call.todos = none ∨ tool_call.todos = some []) :
    TodoListMiddleware.before_tool_call svc tool_call =
      ({ tool_call with
          skip := true,
          res := some (TodoListMiddleware.TodoResult.failure
            TodoListMiddleware.emptyTodosError) },
        none, svc) := by
  rcases hempty with h | h <;>
    simp [TodoListMiddleware.before_tool_call, hname, h]

/-- C4 witness: submitting `write_todos` with an explicitly empty task
list against a fresh task tracker yields the skip flag, the failure
envelope, and no state updates. -/
theorem planning_empty_C4_witness :
    TodoListMiddleware.before_tool_call {}
        { fname := some "write_todos", todos := some [] } =
      ({ fname := some "write_todos", todos := some [], skip := true,
          res := some (TodoListMiddleware.TodoResult.failure
            TodoListMiddleware.emptyTodosError) },
        none, {}) :=
  planning_empty_C4 {} { fname := some "write_todos", todos := some [] }
    rfl (Or.inr rfl)

/-- C5.  Delegation gate and envelope discipline
(`SubAgentMiddleware.before_tool_call`, subagents.py lines 229-251, and
`SubAgentMiddleware.run_subagent`, lines 170-192): invoking the `task`
tool while the `todos` state key is empty or absent yields the
structured refusal substituted via the skip protocol, with no state
updates and without touching the sub-agent cache (the orchestrator then
never calls the tool, so no sub-agent is constructed or invoked);
invoking it with a non-empty `todos` passes the call through unchanged,
and the ensuing `run_subagent` reuses a cached sub-agent instance when
one exists for the requested type, constructs and caches one when the
type is resolvable, reports an unknown type as a structured error, and
wraps the nested run's outcome in a success-or-failure envelope — an
exception from the nested run becomes a failure envelope, never a raise
past the middleware boundary (the embedded function is total). -/
theorem delegation_gate_C5 (tool_call : SubAgentMiddleware.SAToolCall)
    (todos0 : Option (List Todo)) (cfg : SubAgentMiddleware.MWConfig)
    (cache : SubAgentMiddleware.Cache) (stype : String)
    (runAgent : String → SubAgentMiddleware.RunOutcome) :
    (tool_call.fname = some "task" → (todos0 = none ∨ todos0 = some []) →
      SubAgentMiddleware.before_tool_call tool_call todos0 =
        ({ tool_call with
            skip := true,
            res := some (SubAgentMiddleware.Envelope.failure
              SubAgentMiddleware.planningRequiredError) }, none)) ∧
    (tool_call.fname = some "task" → ∀ ts, todos0 = some ts → ts ≠ [] →
      SubAgentMiddleware.before_tool_call tool_call todos0 = (tool_call, none)) ∧
    (stype ∈ cache →
      SubAgentMiddleware.run_subagent cfg cache stype runAgent =
        (SubAgentMiddleware.execEnvelope (runAgent stype), cache)) ∧
    (stype ∉ cache → SubAgentMiddleware.createSucceeds cfg stype = true →
      SubAgentMiddleware.run_subagent cfg cache stype runAgent =
        (SubAgentMiddleware.execEnvelope (runAgent stype), cache ++ [stype])) ∧
    (stype ∉ cache → SubAgentMiddleware.createSucceeds cfg stype = false →
      SubAgentMiddleware.run_subagent cfg cache stype runAgent =
        (SubAgentMiddleware.Envelope.unknown
          (SubAgentMiddleware.unknownTypeError cfg stype), cache)) ∧
    (∀ e, runAgent stype = SubAgentMiddleware.RunOutcome.exc e →
      (stype ∈ cache ∨ SubAgentMiddleware.createSucceeds cfg stype = true) →
      (SubAgentMiddleware.run_subagent cfg cache stype runAgent).1 =
        SubAgentMiddleware.Envelope.failure e) := by
  refine ⟨?_, ?_, ?_, ?_, ?_, ?_⟩
  · intro hname hempty
    rcases hempty with h | h <;>
      simp [SubAgentMiddleware.before_tool_call, hname, h]
  · intro hname ts hts hne
    simp [SubAgentMiddleware.before_tool_call, hname, hts, hne]
  · intro hmem
    simp [SubAgentMiddleware.run_subagent, hmem]
  · intro hmem hcreate
    simp [SubAgentMiddleware.run_subagent, hmem, hcreate]
  · intro hmem hcreate
    simp [SubAgentMiddleware.run_subagent, hmem, hcreate]
  · intro e hexc hres
    rcases hres with hmem | hcreate
    · simp [SubAgentMiddleware.run_subagent, hmem, hexc,
        SubAgentMiddleware.execEnvelope]
    · by_cases hmem : stype ∈ cache
      · simp [SubAgentMiddleware.run_subagent, hmem, hexc,
          SubAgentMiddleware.execEnvelope]
      · simp [SubAgentMiddleware.run_subagent, hmem, hcreate, hexc,
          SubAgentMiddleware.execEnvelope]

/-- C5 witness: with an empty `todos`, a `task` call is refused with the
planning-required failure envelope and no updates; with a non-empty
`todos` it passes through; a fresh general-purpose delegation constructs
and caches the sub-agent, and a nested-run exception surfaces as a
failure envelope. -/
theorem delegation_gate_C5_witness :
    (SubAgentMiddleware.before_tool_call { fname := some "task" } none =
      ({ fname := some "task", skip := true,
          res := some (SubAgentMiddleware.Envelope.failure
            SubAgentMiddleware.planningRequiredError) }, none)) ∧
    (SubAgentMiddleware.before_tool_call { fname := some "task" }
        (some [{ content := "step 1", status := "pending" }]) =
      ({ fname := some "task" }, none)) ∧
    (SubAgentMiddleware.run_subagent
        { general_purpose_agent := true, subagents := [] } [] "general-purpose"
        (fun _ => SubAgentMiddleware.RunOutcome.exc "boom") =
      (SubAgentMiddleware.Envelope.failure "boom", ["general-purpose"])) := by
  have h1 := (delegation_gate_C5 { fname := some "task" } none
    { general_purpose_agent := true, subagents := [] } [] "general-purpose"
    (fun _ => SubAgentMiddleware.RunOutcome.exc "boom")).1 rfl (Or.inl rfl)
  have h2 := (delegation_gate_C5 { fname := some "task" }
    (some [{ content := "step 1", status := "pending" }])
    { general_purpose_agent := true, subagents := [] } [] "general-purpose"
    (fun _ => SubAgentMiddleware.RunOutcome.exc "boom")).2.1 rfl
    [{ content := "step 1", status := "pending" }] rfl (by decide)
  have h3 := (delegation_gate_C5 { fname := some "task" } none
    { general_purpose_agent := true, subagents := [] } [] "general-purpose"
    (fun _ => SubAgentMiddleware.RunOutcome.exc "boom")).2.2.2.1
    (by decide) (by decide)
  exact ⟨h1, h2, h3⟩

/-- C8.  Delegation-middleware constructor mismatch: with the default
middleware stack enabled and sub-agent delegation enabled,
`StatefulAgent.__init__` (stateful_agent.py lines 145-153) passes a
`parent_tools` keyword argument to `SubAgentMiddleware.__init__`
(subagents.py lines 138-145), whose signature declares no such parameter
and no `**kwargs`; Python keyword binding therefore raises `TypeError`
during construction, before any task can run — regardless of the other
middleware flags, no agent configured this way is ever successfully
constructed.  (The external model client and tool registrations, which
run earlier, are assumed to construct successfully; they are out-of-scope
collaborators.) -/
theorem constructor_typeerror_C8
    (enable_todolist enable_filesystem enable_summarization : Bool) :
    StatefulAgent.buildDefaultMiddlewares true enable_todolist
        enable_filesystem true enable_summarization =
      Except.error
        "TypeError: __init__() got an unexpected keyword argument 'parent_tools'" := by
  cases enable_todolist <;> cases enable_filesystem <;>
    cases enable_summarization <;> rfl

theorem getLast?_cons_or {α : Type} (a : α) (l : List α) :
    (a :: l).getLast? = l.getLast?.or (some a) := by
  induction l generalizing a with
  | nil => rfl
  | cons b l ih =>
      rw [List.getLast?_cons_cons, ih b]
      cases l.getLast? <;> rfl

theorem consumeStep_snd (acc : String × Option (List MToolCall))
    (c : StatefulAgent.Chunk) :
    (StatefulAgent.consumeStep acc c).2 =
      (StatefulAgent.truthyToolCalls c).or acc.2 := by
  rcases c with ⟨cnt, tcs⟩
  unfold StatefulAgent.consumeStep StatefulAgent.truthyToolCalls
  cases cnt <;> cases tcs <;> dsimp only
  · rfl
  · split <;> rfl
  · split <;> rfl
  · rename_i s tl
    by_cases hs : s ≠ "" <;> by_cases ht : tl ≠ [] <;>
      simp [hs, ht, Option.or]

/-- C9 counterexample.  The claim asserts the executed tool-call list is
the tool-call field of the *final* chunk, for every stream the model
capability may produce; but `_execute_agent_loop` (stateful_agent.py
lines 272-273) only overwrites `final_tool_calls` on a truthy
`chunk.tool_calls`, so a stream whose last chunk carries no tool calls
keeps an earlier chunk's list: here the loop executes the first chunk's
tool call although the final chunk's tool-call field is `None`. -/
theorem stream_toolcalls_C9_counterexample :
    (StatefulAgent.consumeStream
        [{ tool_calls := some [⟨"1", "f", "a"⟩] }, { content := some "x" }]).2 =
      some [⟨"1", "f", "a"⟩] ∧
    ¬ ((StatefulAgent.consumeStream
        [{ tool_calls := some [⟨"1", "f", "a"⟩] }, { content := some "x" }]).2 =
      (List.getLast? [({ tool_calls := some [⟨"1", "f", "a"⟩] } : StatefulAgent.Chunk),
          { content := some "x" }]).bind StatefulAgent.Chunk.tool_calls) := by
  decide

/-- C9 (amended).  Stream consumption in `_execute_agent_loop`
(stateful_agent.py lines 263-277): the tool-call list the loop executes
is the tool-call field of the last chunk whose tool-call field is truthy
(present and non-empty) — a later such chunk supersedes every earlier
one — and when no chunk carries a truthy tool-call list, no tool calls
are executed. -/
theorem stream_toolcalls_C9 (chunks : List StatefulAgent.Chunk) :
    (StatefulAgent.consumeStream chunks).2 =
      (chunks.filterMap StatefulAgent.truthyToolCalls).getLast? := by
  have main : ∀ (cs : List StatefulAgent.Chunk)
      (acc : String × Option (List MToolCall)),
      (cs.foldl StatefulAgent.consumeStep acc).2 =
        ((cs.filterMap StatefulAgent.truthyToolCalls).getLast?).or acc.2 := by
    intro cs
    induction cs with
    | nil =>
        intro acc
        simp
    | cons c cs ih =>
        intro acc
        rw [List.foldl_cons, List.filterMap_cons, ih (StatefulAgent.consumeStep acc c),
          consumeStep_snd]
        cases htc : StatefulAgent.truthyToolCalls c with
        | none => rfl
        | some tcs =>
            rw [getLast?_cons_or]
            cases (cs.filterMap StatefulAgent.truthyToolCalls).getLast? <;> rfl
  rw [StatefulAgent.consumeStream, main chunks ("", none)]
  cases (chunks.filterMap StatefulAgent.truthyToolCalls).getLast? <;> rfl

theorem lookup_append {α : Type} (l₁ l₂ : List (String × α)) (k : String) :
    (l₁ ++ l₂).lookup k = (l₁.lookup k).or (l₂.lookup k) := by
  induction l₁ with
  | nil => simp [List.lookup]
  | cons kv l ih =>
      obtain ⟨k₀, v₀⟩ := kv
      simp only [List.cons_append, List.lookup]
      cases hb : (k == k₀) <;> simp [ih]

theorem lastBind_append {α : Type} (u₁ u₂ : MiddlewareStack.Smap α) (k : String) :
    MiddlewareStack.lastBind (u₁ ++ u₂) k =
      (MiddlewareStack.lastBind u₂ k).or (MiddlewareStack.lastBind u₁ k) := by
  unfold MiddlewareStack.lastBind
  rw [List.reverse_append, lookup_append]

theorem lookup_dictUpdate {α : Type} (st u : MiddlewareStack.Smap α) (k : String) :
    (dictUpdate st u).lookup k =
      (MiddlewareStack.lastBind u k).or (st.lookup k) := by
  induction u generalizing st with
  | nil => simp [dictUpdate, MiddlewareStack.lastBind, List.lookup]
  | cons kv u ih =>
      obtain ⟨k₀, v₀⟩ := kv
      have hstep : dictUpdate st ((k₀, v₀) :: u) = dictUpdate (dictSet st k₀ v₀) u := rfl
      rw [hstep, ih]
      have hlast : MiddlewareStack.lastBind ((k₀, v₀) :: u) k =
          (MiddlewareStack.lastBind u k).or (List.lookup k [(k₀, v₀)]) := by
        unfold MiddlewareStack.lastBind
        rw [show ((k₀, v₀) :: u).reverse = u.reverse ++ [(k₀, v₀)] by simp,
          lookup_append]
      rw [hlast]
      have hset : (dictSet st k₀ v₀).lookup k =
          (List.lookup k [(k₀, v₀)]).or (st.lookup k) := by
        by_cases hk : k = k₀
        · subst hk
          rw [lookup_dictSet]
          simp [List.lookup]
        · rw [lookup_dictSet_ne st k k₀ v₀ hk]
          have hb : (k == k₀) = false := beq_eq_false_iff_ne.mpr hk
          simp [List.lookup, hb]
      rw [hset, Option.or_assoc]

theorem applyHook_eq_dictUpdate {α : Type} (st : MiddlewareStack.Smap α)
    (u : Option (MiddlewareStack.Smap α)) :
    MiddlewareStack.applyHook st u = dictUpdate st (MiddlewareStack.normalizeUpd u) := by
  cases u with
  | none => rfl
  | some u =>
      simp only [MiddlewareStack.applyHook, MiddlewareStack.normalizeUpd]
      by_cases h : u.isEmpty
      · rw [if_pos h, if_pos h]
        rfl
      · rw [if_neg h, if_neg h]

theorem run_before_llm_lookup {α : Type} (mws : List (MiddlewareStack.BeforeLlmHook α))
    (state : MiddlewareStack.Smap α) (k : String) :
    (MiddlewareStack.run_before_llm mws state).lookup k =
      (MiddlewareStack.lastBind ((MiddlewareStack.collectUpdates mws state).flatten) k).or
        (state.lookup k) := by
  induction mws generalizing state with
  | nil => simp [MiddlewareStack.run_before_llm, MiddlewareStack.collectUpdates,
      MiddlewareStack.lastBind, List.lookup]
  | cons mw rest ih =>
      rw [show MiddlewareStack.run_before_llm (mw :: rest) state =
          MiddlewareStack.run_before_llm rest
            (MiddlewareStack.applyHook state (mw state)) from rfl,
        ih, show MiddlewareStack.collectUpdates (mw :: rest) state =
          MiddlewareStack.normalizeUpd (mw state) ::
            MiddlewareStack.collectUpdates rest
              (MiddlewareStack.applyHook state (mw state)) from rfl,
        List.flatten_cons, lastBind_append,
        applyHook_eq_dictUpdate, lookup_dictUpdate, Option.or_assoc]

theorem run_after_tool_lookup {α β : Type}
    (mws : List (MiddlewareStack.AfterToolHook α β)) (result : β)
    (state : MiddlewareStack.Smap α) (k : String) :
    ((MiddlewareStack.run_after_tool mws result state).2).lookup k =
      (MiddlewareStack.lastBind
          ((MiddlewareStack.collectUpdatesAT mws result state).flatten) k).or
        (state.lookup k) := by
  induction mws generalizing result state with
  | nil => simp [MiddlewareStack.run_after_tool, MiddlewareStack.collectUpdatesAT,
      MiddlewareStack.lastBind, List.lookup]
  | cons mw rest ih =>
      rw [show MiddlewareStack.run_after_tool (mw :: rest) result state =
          MiddlewareStack.run_after_tool rest (mw result state).1
            (MiddlewareStack.applyHook state (mw result state).2) from rfl,
        ih, show MiddlewareStack.collectUpdatesAT (mw :: rest) result state =
          MiddlewareStack.normalizeUpd (mw result state).2 ::
            MiddlewareStack.collectUpdatesAT rest (mw result state).1
              (MiddlewareStack.applyHook state (mw result state).2) from rfl,
        List.flatten_cons, lastBind_append,
        applyHook_eq_dictUpdate, lookup_dictUpdate, Option.or_assoc]

/-- C7 counterexample.  The claim says each hook's update set is applied
"after every middleware in the chain has run for that hook"; under that
batch reading (`run_before_llm_batchSpec`) every hook observes the
original state.  The source (`MiddlewareStack.run_before_llm`, base.py
lines 74-79) instead merges each hook's updates before the next
middleware runs: with a first middleware writing `k := 1` and a second
returning `k := (state k or 0) + 1`, the source yields `k = 2` while the
batch reading yields `k = 1` — so the timing half of the claim is false
as stated. -/
theorem pipeline_merge_C7_counterexample :
    MiddlewareStack.run_before_llm
        [(fun _ => some [("k", 1)]),
         (fun st => some [("k", ((st.lookup "k").getD 0) + 1)])] [] =
      [("k", 2)] ∧
    MiddlewareStack.run_before_llm_batchSpec
        [(fun _ => some [("k", 1)]),
         (fun st => some [("k", ((st.lookup "k").getD 0) + 1)])] [] =
      [("k", 1)] ∧
    ¬ (MiddlewareStack.run_before_llm
        [(fun _ => some [("k", 1)]),
         (fun st => some [("k", ((st.lookup "k").getD 0) + 1)])] [] =
      MiddlewareStack.run_before_llm_batchSpec
        [(fun _ => some [("k", 1)]),
         (fun st => some [("k", ((st.lookup "k").getD 0) + 1)])] []) := by
  refine ⟨rfl, rfl, by decide⟩

/-- C7 (amended).  Pipeline state merging (`MiddlewareStack`, base.py
lines 74-102): for every extension point the pipeline invokes the
middleware hooks in list order, applying each hook's returned update set
to the state container by shallow merge immediately after that hook
returns — before the next middleware runs — and threading the tool
result through the chain for the tool hooks; consequently the value
retained at any state key is the one written by the latest middleware
that wrote it during the run (last-writer-wins via sequential merge),
falling back to the original state.  Stated for the stateless
`run_before_llm` chain and the result-threading `run_after_tool` chain;
`collectUpdates`/`collectUpdatesAT` list the update sets in the order the
sequential run emits them. -/
theorem pipeline_merge_C7 {α β : Type}
    (mws : List (MiddlewareStack.BeforeLlmHook α))
    (mws' : List (MiddlewareStack.AfterToolHook α β))
    (state state' : MiddlewareStack.Smap α) (result : β) (k : String) :
    (MiddlewareStack.run_before_llm mws state).lookup k =
      (MiddlewareStack.lastBind
          ((MiddlewareStack.collectUpdates mws state).flatten) k).or
        (state.lookup k) ∧
    ((MiddlewareStack.run_after_tool mws' result state').2).lookup k =
      (MiddlewareStack.lastBind
          ((MiddlewareStack.collectUpdatesAT mws' result state').flatten) k).or
        (state'.lookup k) :=
  ⟨run_before_llm_lookup mws state k, run_after_tool_lookup mws' result state' k⟩

/-- C3 counterexample.  With `keep_last = 0` the claim predicts a
post-summarization transcript of exactly `1 + 1 + 0 = 2` messages; but
Python's `messages[-0:]` is the whole list and `messages[:-0]` is empty
(summarization.py lines 142-143), so with a 2-message transcript over the
token ceiling the code keeps *all* non-system messages as the recent
window and prepends a summary of zero old messages, producing 3 messages
— the transcript grows instead of compacting to 2. -/
theorem summarization_C3_counterexample :
    (SummarizationMiddleware.before_llm_call 0 0 (fun _ => some "S")
        [{ role := "system", content := "aaaa" }, { role := "user", content := "bbbb" }]
        0).map (fun p => (p.1.length, p.2)) = some (3, 1) ∧
    ¬ ((SummarizationMiddleware.before_llm_call 0 0 (fun _ => some "S")
        [{ role := "system", content := "aaaa" }, { role := "user", content := "bbbb" }]
        0).map (fun p => p.1.length) = some (1 + 1 + 0)) := by
  exact ⟨by decide, by decide⟩

theorem splitSystem_length (messages : List Msg) :
    messages.length ≤ (SummarizationMiddleware.splitSystem messages).2.length + 1 := by
  cases messages with
  | nil => simp [SummarizationMiddleware.splitSystem]
  | cons m tail =>
      by_cases h : m.role = "system" <;>
        simp [SummarizationMiddleware.splitSystem, h]

theorem drop_two_cons_sub {α : Type} (a b : α) (rec : List α) (k : Nat)
    (h : rec.length = k) :
    (a :: b :: rec).drop ((a :: b :: rec).length - k) = rec := by
  subst h
  simp only [List.length_cons]
  rw [show rec.length + 1 + 1 - rec.length = 2 by omega]
  rfl

theorem drop_one_cons_sub {α : Type} (b : α) (rec : List α) (k : Nat)
    (h : rec.length = k) :
    (b :: rec).drop ((b :: rec).length - k) = rec := by
  subst h
  simp only [List.length_cons]
  rw [show rec.length + 1 - rec.length = 1 by omega]
  rfl

/-- C3 (amended).  Summarization
(`SummarizationMiddleware.before_llm_call`, summarization.py lines
120-184) with `keep_last = k ≥ 1`: when the before-LLM hook fires on a
transcript whose approximate token count exceeds the configured ceiling
and which has more than `k + 1` messages, the resulting transcript has
exactly `(1 if a leading system message was present else 0) + 1 + k`
messages, its last `k` messages are identical in content and order to
the pre-summarization last `k`, and the returned `summarization_count`
update is exactly the old count plus 1.  (For `k = 0` the claim fails;
see the counterexample.) -/
theorem summarization_C3 (max_tokens keep_last : Nat)
    (gen : List Msg → Option String) (messages : List Msg)
    (summarization_count : Nat)
    (hk : 1 ≤ keep_last)
    (hlen : keep_last + 1 < messages.length)
    (htok : max_tokens < SummarizationMiddleware.count_messages_tokens messages) :
    ∃ new_messages,
      SummarizationMiddleware.before_llm_call max_tokens keep_last gen messages
          summarization_count = some (new_messages, summarization_count + 1) ∧
      new_messages.length =
        (if (messages.head?.map Msg.role) = some "system" then 1 else 0) + 1 +
          keep_last ∧
      new_messages.drop (new_messages.length - keep_last) =
        messages.drop (messages.length - keep_last) := by
  have hrest : keep_last < (SummarizationMiddleware.splitSystem messages).2.length := by
    have := splitSystem_length messages
    omega
  unfold SummarizationMiddleware.before_llm_call
  rw [if_neg (by omega), if_neg (by omega), if_neg (by omega)]
  have hk0 : keep_last ≠ 0 := by omega
  cases messages with
  | nil => simp at hlen
  | cons m tail =>
      simp only [List.length_cons] at hlen
      by_cases hrole : m.role = "system"
      · have hsplit : SummarizationMiddleware.splitSystem (m :: tail) =
            (some m, tail) := by
          simp [SummarizationMiddleware.splitSystem, hrole]
        rw [hsplit] at hrest ⊢
        have htail : keep_last < tail.length := by simpa using hrest
        have hrec : (tail.drop (tail.length - keep_last)).length = keep_last := by
          simp only [List.length_drop]
          omega
        refine ⟨_, rfl, ?_, ?_⟩
        · have hif : (if ((m :: tail).head?.map Msg.role) = some "system"
              then (1 : Nat) else 0) = 1 := by
            simp [hrole]
          rw [hif]
          simp only [SummarizationMiddleware.recentOf, if_neg hk0]
          simp only [List.length_append, List.length_cons, List.length_nil]
          rw [hrec]
          omega
        · simp only [SummarizationMiddleware.recentOf, if_neg hk0,
            List.cons_append, List.nil_append]
          rw [drop_two_cons_sub _ _ _ _ hrec]
          rw [show (m :: tail).length - keep_last = (tail.length - keep_last) + 1 from
              by simp only [List.length_cons]; omega,
            List.drop_succ_cons]
      · have hsplit : SummarizationMiddleware.splitSystem (m :: tail) =
            (none, m :: tail) := by
          simp [SummarizationMiddleware.splitSystem, hrole]
        rw [hsplit] at hrest ⊢
        have hrec : ((m :: tail).drop ((m :: tail).length - keep_last)).length =
            keep_last := by
          simp only [List.length_drop, List.length_cons]
          omega
        refine ⟨_, rfl, ?_, ?_⟩
        · have hif : (if ((m :: tail).head?.map Msg.role) = some "system"
              then (1 : Nat) else 0) = 0 := by
            simp [hrole]
          rw [hif]
          simp only [SummarizationMiddleware.recentOf, if_neg hk0,
            List.nil_append]
          rw [List.length_cons, hrec]
          omega
        · simp only [SummarizationMiddleware.recentOf, if_neg hk0,
            List.nil_append]
          rw [drop_one_cons_sub _ _ _ hrec]

/-- C3 witness: `keep_last = 1`, token ceiling 0, on the 3-message
transcript `[system, user, assistant]` with a fixed summary oracle: the
result is `[system, summary, assistant]` — `1 + 1 + 1` messages whose
last 1 equals the original last 1 — with `summarization_count` going
from 5 to 6. -/
theorem summarization_C3_witness :
    ∃ new_messages,
      SummarizationMiddleware.before_llm_call 0 1 (fun _ => some "S")
          [{ role := "system", content := "aaaa" },
           { role := "user", content := "bbbb" },
           { role := "assistant", content := "cccc" }] 5 =
        some (new_messages, 5 + 1) ∧
      new_messages.length =
        (if (([{ role := "system", content := "aaaa" },
              { role := "user", content := "bbbb" },
              { role := "assistant", content := "cccc" }] : List Msg).head?.map
            Msg.role) = some "system" then 1 else 0) + 1 + 1 ∧
      new_messages.drop (new_messages.length - 1) =
        ([{ role := "system", content := "aaaa" },
          { role := "user", content := "bbbb" },
          { role := "assistant", content := "cccc" }] : List Msg).drop
          (([{ role := "system", content := "aaaa" },
             { role := "user", content := "bbbb" },
             { role := "assistant", content := "cccc" }] : List Msg).length - 1) :=
  summarization_C3 0 1 (fun _ => some "S")
    [{ role := "system", content := "aaaa" },
     { role := "user", content := "bbbb" },
     { role := "assistant", content := "cccc" }] 5
    (by decide) (by decide) (by decide)

theorem head?_append_left (messages : List Msg) (m : Msg)
    (h : messages ≠ []) : (messages ++ [m]).head? = messages.head? := by
  cases messages with
  | nil => exact absurd rfl h
  | cons a l => rfl

theorem installsSystem_of_system (messages : List Msg)
    (h : (messages.head?.map Msg.role) = some "system") :
    StatefulAgent.installsSystem messages = false := by
  cases messages with
  | nil => simp at h
  | cons a l =>
      simp only [List.head?_cons, Option.map_some, Option.some.injEq] at h
      simp [StatefulAgent.installsSystem, h]

theorem initMessages_head (system_prompt task : String) (messages : List Msg) :
    ((StatefulAgent.initMessages system_prompt task messages).head?.map Msg.role) =
      some "system" := by
  unfold StatefulAgent.initMessages
  by_cases hguard : messages = [] ∨ ¬ ((messages.head?.map Msg.role) = some "system")
  · rw [if_pos hguard]
    rfl
  · rw [if_neg hguard]
    push_neg at hguard
    obtain ⟨hne, hsys⟩ := hguard
    rw [head?_append_left messages _ hne, hsys]

theorem before_llm_call_head (max_tokens keep_last : Nat)
    (gen : List Msg → Option String) (messages new_messages : List Msg)
    (c c' : Nat)
    (hsys : (messages.head?.map Msg.role) = some "system")
    (hcall : SummarizationMiddleware.before_llm_call max_tokens keep_last gen
      messages c = some (new_messages, c')) :
    new_messages.head? = messages.head? := by
  cases messages with
  | nil =>
      unfold SummarizationMiddleware.before_llm_call at hcall
      rw [if_pos (by simp)] at hcall
      exact absurd hcall (by simp)
  | cons m tail =>
      simp at hsys
      have hsplit : SummarizationMiddleware.splitSystem (m :: tail) =
          (some m, tail) := by
        simp [SummarizationMiddleware.splitSystem, hsys]
      unfold SummarizationMiddleware.before_llm_call at hcall
      by_cases h1 : (m :: tail).length ≤ keep_last + 1
      · rw [if_pos h1] at hcall
        exact absurd hcall (by simp)
      · rw [if_neg h1] at hcall
        by_cases h2 : SummarizationMiddleware.count_messages_tokens (m :: tail) ≤
            max_tokens
        · rw [if_pos h2] at hcall
          exact absurd hcall (by simp)
        · rw [if_neg h2] at hcall
          rw [hsplit] at hcall
          by_cases h3 : tail.length ≤ keep_last
          · rw [if_pos h3] at hcall
            exact absurd hcall (by simp)
          · rw [if_neg h3] at hcall
            simp only [Option.some.injEq, Prod.mk.injEq] at hcall
            rw [← hcall.1]
            rfl

theorem runOps_invariant (ops : List StatefulAgent.LoopOp)
    (st : List Msg × Nat)
    (h : (st.1.head?.map Msg.role) = some "system") :
    ((StatefulAgent.runOps st ops).1.1.head?.map Msg.role) = some "system" ∧
    (StatefulAgent.runOps st ops).2 = 0 := by
  induction ops generalizing st with
  | nil => exact ⟨h, rfl⟩
  | cons op rest ih =>
      have hne : st.1 ≠ [] := by
        intro hnil
        rw [hnil] at h
        simp at h
      cases op with
      | startRun sp task =>
          have hins : StatefulAgent.installsSystem st.1 = false :=
            installsSystem_of_system st.1 h
          have hstep : StatefulAgent.runOps st (StatefulAgent.LoopOp.startRun sp task :: rest) =
              ((StatefulAgent.runOps (StatefulAgent.applyOp st
                  (StatefulAgent.LoopOp.startRun sp task)) rest).1,
                (if StatefulAgent.installsSystem st.1 then 1 else 0) +
                  (StatefulAgent.runOps (StatefulAgent.applyOp st
                    (StatefulAgent.LoopOp.startRun sp task)) rest).2) := rfl
          rw [hstep, hins]
          have hhead : (((StatefulAgent.applyOp st
              (StatefulAgent.LoopOp.startRun sp task)).1).head?.map Msg.role) =
              some "system" := initMessages_head sp task st.1
          obtain ⟨ha, hb⟩ := ih _ hhead
          exact ⟨ha, by simp [hb]⟩
      | appendMsg m =>
          have hhead : (((StatefulAgent.applyOp st
              (StatefulAgent.LoopOp.appendMsg m)).1).head?.map Msg.role) =
              some "system" := by
            show (((st.1 ++ [m] : List Msg)).head?.map Msg.role) = some "system"
            rw [head?_append_left st.1 m hne]
            exact h
          obtain ⟨ha, hb⟩ := ih _ hhead
          have hstep : StatefulAgent.runOps st
              (StatefulAgent.LoopOp.appendMsg m :: rest) =
              ((StatefulAgent.runOps (StatefulAgent.applyOp st
                  (StatefulAgent.LoopOp.appendMsg m)) rest).1,
                0 + (StatefulAgent.runOps (StatefulAgent.applyOp st
                  (StatefulAgent.LoopOp.appendMsg m)) rest).2) := rfl
          rw [hstep]
          exact ⟨ha, by rw [hb]⟩
      | summarize mt k gen =>
          have hhead : (((StatefulAgent.applyOp st
              (StatefulAgent.LoopOp.summarize mt k gen)).1).head?.map Msg.role) =
              some "system" := by
            show ((match SummarizationMiddleware.before_llm_call mt k gen st.1 st.2 with
              | some upd => upd
              | none => st).1.head?.map Msg.role) = some "system"
            cases hcall : SummarizationMiddleware.before_llm_call mt k gen st.1 st.2 with
            | none => exact h
            | some upd =>
                obtain ⟨new_messages, c'⟩ := upd
                have := before_llm_call_head mt k gen st.1 new_messages st.2 c' h hcall
                simp only
                rw [this]
                exact h
          obtain ⟨ha, hb⟩ := ih _ hhead
          have hstep : StatefulAgent.runOps st
              (StatefulAgent.LoopOp.summarize mt k gen :: rest) =
              ((StatefulAgent.runOps (StatefulAgent.applyOp st
                  (StatefulAgent.LoopOp.summarize mt k gen)) rest).1,
                0 + (StatefulAgent.runOps (StatefulAgent.applyOp st
                  (StatefulAgent.LoopOp.summarize mt k gen)) rest).2) := rfl
          rw [hstep]
          exact ⟨ha, by rw [hb]⟩

/-- C6.  System-prompt invariant (`StatefulAgent._execute_agent_loop`,
stateful_agent.py lines 226-242, and
`SummarizationMiddleware.before_llm_call`, summarization.py lines
163-172): starting from a fresh state container, after the first run's
initialization the message at index 0 of `messages` has role `system`,
and it keeps that property across any subsequent sequence of transcript
operations an agent lifetime performs — further `run`/`run_stream`
initializations, assistant/tool-turn appends, and summarization rebuilds
of the transcript; the system prompt is inserted at index 0 exactly once
over the whole lifetime (the conditional insert fires on the first
initialization and never again). -/
theorem system_prompt_C6 (system_prompt task : String)
    (ops : List StatefulAgent.LoopOp) :
    ((StatefulAgent.runOps ([], 0)
        (StatefulAgent.LoopOp.startRun system_prompt task :: ops)).1.1.head?.map
      Msg.role) = some "system" ∧
    (StatefulAgent.runOps ([], 0)
        (StatefulAgent.LoopOp.startRun system_prompt task :: ops)).2 = 1 := by
  have hstep : StatefulAgent.runOps ([], 0)
      (StatefulAgent.LoopOp.startRun system_prompt task :: ops) =
      ((StatefulAgent.runOps (StatefulAgent.applyOp ([], 0)
          (StatefulAgent.LoopOp.startRun system_prompt task)) ops).1,
        (if StatefulAgent.installsSystem [] then 1 else 0) +
          (StatefulAgent.runOps (StatefulAgent.applyOp ([], 0)
            (StatefulAgent.LoopOp.startRun system_prompt task)) ops).2) := rfl
  rw [hstep]
  have hins : StatefulAgent.installsSystem [] = true := by
    simp [StatefulAgent.installsSystem]
  rw [hins]
  have hhead : (((StatefulAgent.applyOp ([], 0)
      (StatefulAgent.LoopOp.startRun system_prompt task)).1).head?.map Msg.role) =
      some "system" := initMessages_head system_prompt task []
  obtain ⟨ha, hb⟩ := runOps_invariant ops _ hhead
  exact ⟨ha, by simp [hb]⟩
